import Mathlib

/-!
Shallow embedding of the scheduling core of the dental-receptionist backend
(`backend/app/services/calendar_service.py`), together with theorems settling
the specification claims about it.

Modelling conventions:

* Timestamps are integers counting seconds on the clinic's fixed-offset local
  timeline (the source pins a constant +05:00 offset, so local wall-clock time
  is an affine copy of UTC and a single integer axis is faithful).  Python's
  `datetime` has microsecond resolution; all constants in the source are whole
  seconds, so second granularity is used.  `timedelta(minutes=m)` is `m * 60`.
* Dates are integers counting days, with `weekday d = d % 7` anchored so that
  day `0` is a Monday (Python's `date.weekday()` numbering: Monday = 0,
  Sunday = 6).  `datetime.combine(d, time(h, 0))` is `d * 86400 + h * 3600`.
* A Google-calendar event is `Option Interval`: `none` stands for the entries
  `check_time_conflict` skips (all-day events, and events whose datetimes fail
  to parse), `some iv` for a timed event with interval `iv`.
* External effects are passed as values: the calendar read is an
  `Except Unit (List (Option Interval))` (`.error` = the exception path of
  `get_existing_appointments`), the calendar write an `Except Unit Nat`
  (`.ok id` = created event id), and the clock an explicit `now` argument.
* User-facing message strings and the purely cosmetic fields of the slot
  dictionaries (`formatted_time`, `time_24h`, `timezone`, `utc_start`,
  `utc_end` — all derived by formatting `start_time`/`end_time`) are elided;
  results carry the fields the control flow inspects, with distinct
  constructors standing for the distinct failure messages of the source.
-/

namespace CalendarService

/-- `BUSINESS_HOURS_START` default: clinic opens at 9. -/
def CLINIC_OPEN_HOUR : Int := 9

/-- `BUSINESS_HOURS_END` default: clinic closes at 19. -/
def CLINIC_CLOSE_HOUR : Int := 19

/-- `APPOINTMENT_DURATION_MINUTES` default. -/
def APPOINTMENT_DURATION : Int := 60

/-- `BUFFER_TIME_MINUTES` default: 15-minute buffer between appointments. -/
def BUFFER_TIME : Int := 15

/-- A timed interval on the local timeline (seconds). -/
structure Interval where
  start : Int
  endTime : Int
deriving DecidableEq, Repr

/-- A generated slot: the `start_time` / `end_time` fields of the slot
dictionaries produced by `generate_alternative_slots` (seconds). -/
structure Slot where
  start_time : Int
  end_time : Int
deriving DecidableEq, Repr

/-- `is_weekend`: only Sunday (weekday 6) is closed. -/
def is_weekend (d : Int) : Bool := d % 7 == 6

/-- Hour-of-day of a timestamp (what `.hour` reads on the localized datetime). -/
def hourOf (t : Int) : Int := (t % 86400) / 3600

/-- Calendar day of a timestamp (what `.date()` reads), as a floor division. -/
def dayOf (t : Int) : Int := (t - t % 86400) / 86400

/-- `is_within_clinic_hours`: `CLINIC_OPEN_HOUR <= t.hour < CLINIC_CLOSE_HOUR`. -/
def is_within_clinic_hours (t : Int) : Bool :=
  decide (CLINIC_OPEN_HOUR ≤ hourOf t) && decide (hourOf t < CLINIC_CLOSE_HOUR)

/-- The `direct_overlap` test of `check_time_conflict`:
`requested_start < existing_end and requested_end > existing_start`. -/
def direct_overlap (rs re es ee : Int) : Bool :=
  decide (rs < ee) && decide (re > es)

/-- The `buffer_overlap` test of `check_time_conflict`: the direct test after
widening the requested interval by `buf` seconds on both ends. -/
def buffer_overlap (buf rs re es ee : Int) : Bool :=
  decide (rs - buf < ee) && decide (re + buf > es)

/-- `check_time_conflict(requested_start, requested_end, existing_events)`:
walks the events in list order, skips non-timed entries, and returns
`(True, event)` at the first event whose interval fires the direct or the
buffered overlap test; `(False, None)` if none fires. -/
def check_time_conflict (rs re : Int) :
    List (Option Interval) → Bool × Option Interval
  | [] => (false, none)
  | none :: rest => check_time_conflict rs re rest
  | some ev :: rest =>
    if direct_overlap rs re ev.start ev.endTime
        || buffer_overlap (BUFFER_TIME * 60) rs re ev.start ev.endTime then
      (true, some ev)
    else
      check_time_conflict rs re rest

/-- The rounding `generate_alternative_slots` applies to `earliest_time`:
`replace(minute = 0 if minute < 30 else 30, second=0, microsecond=0)`, i.e.
the timestamp is floored to the previous 0- or 30-minute boundary. -/
def floor_to_half_hour (t : Int) : Int :=
  t - t % 3600 + (if t % 3600 ≥ 1800 then 1800 else 0)

/-- The `while` loop of `generate_alternative_slots`: starting at cursor `ct`,
while `ct + dur <= end_time`, emit `[ct, ct + dur)` unless it conflicts with
an existing event, then advance the cursor by 30 minutes.  The loop body runs
at most once per 30-minute stride, so the explicit `fuel` argument (chosen by
the caller to cover the whole range) never cuts the iteration short; it only
makes the recursion structural. -/
def slot_loop (fuel : Nat) (end_time dur : Int) (existing : List (Option Interval))
    (ct : Int) : List Slot :=
  match fuel with
  | 0 => []
  | fuel + 1 =>
    if ct + dur ≤ end_time then
      let slot_end := ct + dur
      if slot_end > end_time then
        []
      else if (check_time_conflict ct slot_end existing).fst then
        slot_loop fuel end_time dur existing (ct + 1800)
      else
        ⟨ct, slot_end⟩ :: slot_loop fuel end_time dur existing (ct + 1800)
    else []

/-- `generate_alternative_slots(requested_date, duration_minutes)`.  The
existing-events snapshot (the result of the `get_existing_appointments` call
inside the function) and the clock are explicit arguments; `today` is derived
from `now` exactly as the source derives it (`datetime.now(...).date()`). -/
def generate_alternative_slots (requested_date duration_minutes now : Int)
    (existing : List (Option Interval)) : List Slot :=
  if is_weekend requested_date then []
  else
    let today := dayOf now
    if requested_date < today then []
    else
      let start_cursor := requested_date * 86400 + CLINIC_OPEN_HOUR * 3600
      let end_time := requested_date * 86400 + CLINIC_CLOSE_HOUR * 3600
      let current_time :=
        if requested_date = today then
          let earliest_time := now + 3600
          if earliest_time > start_cursor then floor_to_half_hour earliest_time
          else start_cursor
        else start_cursor
      let dur := duration_minutes * 60
      let fuel := (end_time - (current_time + dur)).toNat / 1800 + 1
      let slots := slot_loop fuel end_time dur existing current_time
      slots.filter (fun s => decide (s.end_time ≤ end_time))

/-- The distinct outcomes of `validate_appointment_request`, one constructor
per return branch of the source (identified by its message). -/
inductive ValidateOutcome where
  /-- `'Cannot book appointments in the past. ...'` -/
  | pastError
  /-- `'Appointments can only be booked between ...'` -/
  | hoursError
  /-- `'We are closed on Sundays. ...'` -/
  | weekendError
  /-- `'Appointment would extend beyond clinic hours ...'` -/
  | exceedsError
  /-- `{'valid': True}` -/
  | ok
deriving DecidableEq, Repr

/-- `validate_appointment_request(start_datetime, end_datetime)` against the
clock `now`; checks run in source order, first failure wins. -/
def validate_appointment_request (start_datetime end_datetime now : Int) :
    ValidateOutcome :=
  if start_datetime ≤ now then .pastError
  else if !(is_within_clinic_hours start_datetime
      && is_within_clinic_hours (end_datetime - 60)) then .hoursError
  else if is_weekend (dayOf start_datetime) then .weekendError
  else if end_datetime >
      dayOf start_datetime * 86400 + CLINIC_CLOSE_HOUR * 3600 then .exceedsError
  else .ok

/-- `get_existing_appointments`: the exception handler swallows any calendar
read failure and returns the empty event list. -/
def get_existing_appointments (readResult : Except Unit (List (Option Interval))) :
    List (Option Interval) :=
  match readResult with
  | .ok events => events
  | .error _ => []

/-- `validate_phone_number`: strips whitespace, dashes and parentheses, then
accepts the Pakistani patterns (`+92`/`92`/`0` plus ten digits, eleven digits,
`+92-xxx-xxxxxxx`) or any all-digit string of at least ten characters. -/
def validate_phone_number (phone : String) : Bool :=
  if phone.isEmpty then false
  else
    let clean := phone.toList.filter
      (fun c => !(c.isWhitespace || c == '-' || c == '(' || c == ')'))
    let allDigits := fun (l : List Char) => l.all Char.isDigit
    let p1 := match clean with
      | '+' :: '9' :: '2' :: rest => rest.length == 10 && allDigits rest
      | _ => false
    let p2 := match clean with
      | '9' :: '2' :: rest => rest.length == 10 && allDigits rest
      | _ => false
    let p3 := match clean with
      | '0' :: rest => rest.length == 10 && allDigits rest
      | _ => false
    let p4 := clean.length == 11 && allDigits clean
    -- `+92-xxx-xxxxxxx`: unreachable after dash stripping, kept as in source.
    let p5 := match clean with
      | '+' :: '9' :: '2' :: '-' :: rest =>
        (rest.take 3).length == 3 && allDigits (rest.take 3)
          && rest.drop 3 matches '-' :: _
          && (rest.drop 4).length == 7 && allDigits (rest.drop 4)
      | _ => false
    p1 || p2 || p3 || p4 || p5 || (decide (clean.length ≥ 10) && allDigits clean)

/-- The distinct outcomes of `book_appointment`, one constructor per return
branch of the source (identified by its message / `success` flag). -/
inductive BookOutcome where
  /-- `'Patient name and phone number are required.'` -/
  | missingField
  /-- `'Please provide a valid phone number ...'` -/
  | invalidPhone
  /-- a `validate_appointment_request` rejection, forwarded verbatim -/
  | validationFailed (r : ValidateOutcome)
  /-- `'🚫 BOOKING DENIED: ...'` with alternatives from the slot generator -/
  | conflict (alternatives : List Slot)
  /-- the generic exception handler: `'Failed to book appointment ...'` -/
  | systemError
  /-- `'Appointment successfully booked ...'` with the created event id -/
  | booked (eventId : Nat)
deriving DecidableEq, Repr

/-- `book_appointment` for a request whose `appointment_time` is a
`datetime.time` at `time_of_day` seconds past midnight (the other accepted
input shapes are parsed into the same combined datetime).  The calendar read
used for the conflict check and the calendar write are explicit arguments;
the email-confirmation step does not affect the outcome and is elided. -/
def book_appointment (patient_name patient_phone : String)
    (appointment_date time_of_day duration_minutes now : Int)
    (readResult : Except Unit (List (Option Interval)))
    (writeResult : Except Unit Nat) : BookOutcome :=
  if patient_name.isEmpty || patient_phone.isEmpty then .missingField
  else if !validate_phone_number patient_phone then .invalidPhone
  else
    let naive_datetime := appointment_date * 86400 + time_of_day
    let naive_end := naive_datetime + duration_minutes * 60
    match validate_appointment_request naive_datetime naive_end now with
    | .ok =>
      let existing := get_existing_appointments readResult
      if (check_time_conflict naive_datetime naive_end existing).fst then
        .conflict (generate_alternative_slots appointment_date duration_minutes
          now existing)
      else
        match writeResult with
        | .ok eventId => .booked eventId
        | .error _ => .systemError
    | r => .validationFailed r

/-- The outcome of `get_available_slots_for_date`: the `success` flag and the
`available_slots` list of the returned dictionary. -/
structure SlotsResult where
  success : Bool
  available_slots : List Slot
deriving DecidableEq, Repr

/-- `get_available_slots_for_date(requested_date, duration_minutes)`. -/
def get_available_slots_for_date (requested_date duration_minutes now : Int)
    (existing : List (Option Interval)) : SlotsResult :=
  if is_weekend requested_date then ⟨false, []⟩
  else if requested_date < dayOf now then ⟨false, []⟩
  else
    let slots := generate_alternative_slots requested_date duration_minutes now
      existing
    if slots.length == 0 then ⟨false, []⟩
    else ⟨true, slots⟩

/-- Minute-of-hour of a timestamp (what `.minute` reads). -/
def minuteOfHour (t : Int) : Int := (t % 3600) / 60

/-- Second-of-minute of a timestamp (what `.second` reads). -/
def secondOfMinute (t : Int) : Int := t % 60

/-- Python's substring test `sub in s` over character lists. -/
def containsSub (sub : List Char) : List Char → Bool
  | [] => sub.isEmpty
  | c :: t => sub.isPrefixOf (c :: t) || containsSub sub t

/-- The `days_of_week` dictionary of `parse_natural_date`, in insertion
(= iteration) order. -/
def days_of_week : List (String × Int) :=
  [("monday", 0), ("tuesday", 1), ("wednesday", 2), ("thursday", 3),
   ("friday", 4), ("saturday", 5), ("sunday", 6)]

/-- The `while is_weekend(d): d += 1` loops of `parse_natural_date`.  Only
Sunday is closed, so the loop body runs at most once; the fuel of 7 in
`advanceWhileClosed` therefore never cuts the iteration short, it only makes
the recursion structural. -/
def advance_loop : Nat → Int → Int
  | 0, d => d
  | fuel + 1, d => if is_weekend d then advance_loop fuel (d + 1) else d

/-- `while is_weekend(d): d += 1` — advance day-by-day past closed days. -/
def advanceWhileClosed (d : Int) : Int := advance_loop 7 d

/-- `parse_natural_date(date_input)`.  The clock is the explicit `now`;
`today` and `current_hour` are derived from it as the source derives them.
The body of the final `try` block (generic parsing via the external
`dateutil` library plus its year / closed-day adjustments) is abstracted as
the oracle `generic_parse`, with `none` standing for the exception path; the
`except` handler itself — return tomorrow, advanced past closed days — is
modelled exactly.  The source lowercases and strips the input before the
keyword tests; leading/trailing whitespace never contains a keyword, so only
the lowercasing is made explicit. -/
def parse_natural_date (generic_parse : String → Option Int)
    (date_input : String) (now : Int) : Int :=
  let today := dayOf now
  let di := date_input.toList.map Char.toLower
  if containsSub "today".toList di then
    if decide (hourOf now < CLINIC_CLOSE_HOUR) && !is_weekend today then today
    else advanceWhileClosed (today + 1)
  else if containsSub "tomorrow".toList di then
    advanceWhileClosed (today + 1)
  else
    match days_of_week.find? (fun p => containsSub p.fst.toList di) with
    | some p =>
      let current_weekday := today % 7
      let days_ahead := (p.snd - current_weekday) % 7
      let days_ahead :=
        if days_ahead == 0 && decide (hourOf now ≥ CLINIC_CLOSE_HOUR) then 7
        else days_ahead
      let days_ahead := if days_ahead == 0 then 7 else days_ahead
      let target_date := today + days_ahead
      if is_weekend target_date then target_date + 1 else target_date
    | none =>
      if containsSub "next week".toList di then
        advanceWhileClosed (today + 7)
      else
        match generic_parse date_input with
        | some parsed => parsed
        | none => advanceWhileClosed (today + 1)

/-- Modelled from the claim's words, for comparison with the source's
`check_time_conflict`: the same scan deciding each event by the buffered
overlap test alone, without the direct test. -/
def check_time_conflict_buffered_only (rs re : Int) :
    List (Option Interval) → Bool × Option Interval
  | [] => (false, none)
  | none :: rest => check_time_conflict_buffered_only rs re rest
  | some ev :: rest =>
    if buffer_overlap (BUFFER_TIME * 60) rs re ev.start ev.endTime then
      (true, some ev)
    else
      check_time_conflict_buffered_only rs re rest

/-! ## Helper lemmas -/

/-- For well-formed intervals, one event fires the direct-or-buffered test of
`check_time_conflict` exactly when it directly overlaps the request or sits
within `BUFFER_TIME` minutes of it on either side. -/
theorem overlap_tests_decomp (rs re es ee : Int) (hreq : rs < re) (hev : es < ee) :
    (direct_overlap rs re es ee
        || buffer_overlap (BUFFER_TIME * 60) rs re es ee) = true ↔
      ((rs < ee ∧ re > es) ∨
       (re ≤ es ∧ es - re < BUFFER_TIME * 60) ∨
       (ee ≤ rs ∧ rs - ee < BUFFER_TIME * 60)) := by
  simp only [direct_overlap, buffer_overlap, BUFFER_TIME, Bool.or_eq_true,
    Bool.and_eq_true, decide_eq_true_eq]
  omega

/-- The conflict flag of `check_time_conflict` is the disjunction of the
per-event tests over the timed events of the list. -/
theorem check_time_conflict_fst_eq_any (rs re : Int)
    (evs : List (Option Interval)) :
    (check_time_conflict rs re evs).fst =
      evs.any (fun o => match o with
        | none => false
        | some ev => direct_overlap rs re ev.start ev.endTime
            || buffer_overlap (BUFFER_TIME * 60) rs re ev.start ev.endTime) := by
  induction evs with
  | nil => rfl
  | cons o rest ih =>
    cases o with
    | none => simpa [check_time_conflict] using ih
    | some ev =>
      rw [check_time_conflict]
      split
      · next hfire => simp [List.any_cons, hfire]
      · next hfire =>
        rw [Bool.not_eq_true] at hfire
        simp [List.any_cons, hfire, ih]

/-- Every slot emitted by the generation loop starts at the cursor plus a
whole number of 30-minute strides, lasts exactly `dur`, and ends by
`end_time`. -/
theorem slot_loop_mem {fuel : Nat} {end_time dur ct : Int}
    {existing : List (Option Interval)} {s : Slot}
    (h : s ∈ slot_loop fuel end_time dur existing ct) :
    ct ≤ s.start_time ∧ s.end_time = s.start_time + dur ∧
      s.end_time ≤ end_time ∧ s.start_time % 1800 = ct % 1800 := by
  induction fuel generalizing ct with
  | zero => simp [slot_loop] at h
  | succ n ih =>
    rw [slot_loop] at h
    dsimp only at h
    split at h
    · split at h
      · simp at h
      · split at h
        · have := ih h
          omega
        · rcases List.mem_cons.mp h with hs | hs
          · subst hs
            dsimp only
            omega
          · have := ih hs
            omega
    · simp at h

/-- `floor_to_half_hour` lands on a 30-minute boundary, does not move the
timestamp forward, moves it back by strictly less than 30 minutes, and stays
at or above any 30-minute boundary at or below the timestamp. -/
theorem floor_to_half_hour_props (t : Int) :
    floor_to_half_hour t % 1800 = 0 ∧ floor_to_half_hour t ≤ t ∧
      t - 1800 < floor_to_half_hour t ∧
      ∀ m : Int, m % 1800 = 0 → m ≤ t → m ≤ floor_to_half_hour t := by
  unfold floor_to_half_hour
  split <;> refine ⟨by omega, by omega, by omega, fun m hm hmt => by omega⟩

/-- The cursor the slot generator starts from: at or after the opening time,
on a 30-minute boundary, and (for a same-day query) strictly more than
30 minutes after `now`. -/
theorem generate_cursor_props (requested_date now : Int) :
    let start_cursor := requested_date * 86400 + CLINIC_OPEN_HOUR * 3600
    let current_time :=
      if requested_date = dayOf now then
        let earliest_time := now + 3600
        if earliest_time > start_cursor then floor_to_half_hour earliest_time
        else start_cursor
      else start_cursor
    start_cursor ≤ current_time ∧ current_time % 1800 = 0 ∧
      (requested_date = dayOf now → now + 1800 < current_time) := by
  intro start_cursor current_time
  have hsc : start_cursor % 1800 = 0 := by
    simp only [start_cursor, CLINIC_OPEN_HOUR]
    omega
  simp only [current_time]
  split
  · next htoday =>
    split
    · next hearly =>
      obtain ⟨h1, h2, h3, h4⟩ := floor_to_half_hour_props (now + 3600)
      exact ⟨h4 _ hsc (le_of_lt hearly), h1, fun _ => by omega⟩
    · next hearly => exact ⟨le_refl _, hsc, fun _ => by omega⟩
  · next htoday => exact ⟨le_refl _, hsc, fun h => absurd h htoday⟩

/-- Bounds on every slot returned by `generate_alternative_slots`: it lies
between opening and closing time of the requested date, starts on a 30-minute
boundary, and (for a same-day query) starts strictly more than 30 minutes
after `now`. -/
theorem generate_alternative_slots_mem {requested_date duration_minutes now : Int}
    {existing : List (Option Interval)} {s : Slot}
    (h : s ∈ generate_alternative_slots requested_date duration_minutes now
      existing) :
    requested_date * 86400 + CLINIC_OPEN_HOUR * 3600 ≤ s.start_time ∧
      s.end_time ≤ requested_date * 86400 + CLINIC_CLOSE_HOUR * 3600 ∧
      s.start_time % 1800 = 0 ∧
      (requested_date = dayOf now → now + 1800 < s.start_time) := by
  unfold generate_alternative_slots at h
  dsimp only at h
  split at h
  · simp at h
  · split at h
    · simp at h
    · obtain ⟨hmem, hend⟩ := List.mem_filter.mp h
      have hloop := slot_loop_mem hmem
      have hcur := generate_cursor_props requested_date now
      simp only at hcur
      simp only [decide_eq_true_eq] at hend
      obtain ⟨hc1, hc2, hc3⟩ := hcur
      exact ⟨by omega, hend, by omega, fun ht => by have := hc3 ht; omega⟩

/-! ## Claim theorems -/

/-- **C1** (confirmed).  For a well-formed candidate interval and well-formed
existing timed intervals, `check_time_conflict` reports a conflict exactly
when some existing interval directly overlaps the candidate
(`candidate.start < existing.end` and `candidate.end > existing.start`) or is
adjacent to it with a gap strictly smaller than `BUFFER_TIME` minutes on
either side; when neither test fires for any existing interval it reports
`False`. -/
theorem hasConflict_iff_direct_or_small_gap (rs re : Int)
    (evs : List (Option Interval)) (hreq : rs < re)
    (hex : ∀ iv : Interval, some iv ∈ evs → iv.start < iv.endTime) :
    (check_time_conflict rs re evs).fst = true ↔
      ∃ iv : Interval, some iv ∈ evs ∧
        ((rs < iv.endTime ∧ re > iv.start) ∨
         (re ≤ iv.start ∧ iv.start - re < BUFFER_TIME * 60) ∨
         (iv.endTime ≤ rs ∧ rs - iv.endTime < BUFFER_TIME * 60)) := by
  rw [check_time_conflict_fst_eq_any, List.any_eq_true]
  constructor
  · rintro ⟨o, ho, hfire⟩
    cases o with
    | none => simp at hfire
    | some ev =>
      exact ⟨ev, ho, (overlap_tests_decomp rs re ev.start ev.endTime hreq
        (hex ev ho)).mp hfire⟩
  · rintro ⟨iv, hiv, hcase⟩
    exact ⟨some iv, hiv, (overlap_tests_decomp rs re iv.start iv.endTime hreq
      (hex iv hiv)).mpr hcase⟩

/-- Witness for C1: candidate 10:00–11:00 against an existing 11:10–12:00
appointment — no direct overlap, but the 10-minute gap is below the 15-minute
buffer, so `check_time_conflict` flags it. -/
theorem hasConflict_iff_direct_or_small_gap_witness :
    (check_time_conflict 36000 39600 [some ⟨40200, 43200⟩]).fst = true := by
  refine (hasConflict_iff_direct_or_small_gap 36000 39600
    [some ⟨40200, 43200⟩] (by decide) ?_).mpr
    ⟨⟨40200, 43200⟩, by simp, Or.inr (Or.inl (by decide))⟩
  intro iv hiv
  simp at hiv
  subst hiv
  decide

/-- **C2** (confirmed).  For a non-closed, non-past date, every slot the
generator returns starts no earlier than the date at `CLINIC_OPEN_HOUR:00`
and ends no later than the date at `CLINIC_CLOSE_HOUR:00`. -/
theorem generate_slots_within_business_hours
    (requested_date duration_minutes now : Int)
    (existing : List (Option Interval)) (s : Slot)
    (hopen : is_weekend requested_date = false)
    (hpast : dayOf now ≤ requested_date)
    (h : s ∈ generate_alternative_slots requested_date duration_minutes now
      existing) :
    requested_date * 86400 + CLINIC_OPEN_HOUR * 3600 ≤ s.start_time ∧
      s.end_time ≤ requested_date * 86400 + CLINIC_CLOSE_HOUR * 3600 := by
  have hmem := generate_alternative_slots_mem h
  exact ⟨hmem.1, hmem.2.1⟩

/-- Witness for C2: on open day 1 with a 600-minute duration the generator
emits the single slot 09:00–19:00, which lies within business hours. -/
theorem generate_slots_within_business_hours_witness :
    is_weekend 1 = false ∧ dayOf 0 ≤ 1 ∧
      (1 * 86400 + CLINIC_OPEN_HOUR * 3600 ≤ (118800 : Int) ∧
        (154800 : Int) ≤ 1 * 86400 + CLINIC_CLOSE_HOUR * 3600) :=
  ⟨by decide, by decide,
    generate_slots_within_business_hours 1 600 0 [] ⟨118800, 154800⟩
      (by decide) (by decide) (by decide)⟩

/-- **C3** (confirmed).  On a closed date (weekday 6 = Sunday),
`get_available_slots_for_date` returns `success = False` with an empty slot
list, whatever the existing appointments, the duration, or the clock. -/
theorem get_available_slots_closed_day
    (requested_date duration_minutes now : Int)
    (existing : List (Option Interval))
    (hclosed : is_weekend requested_date = true) :
    get_available_slots_for_date requested_date duration_minutes now existing =
      ⟨false, []⟩ := by
  unfold get_available_slots_for_date
  simp [hclosed]

/-- Witness for C3: day 6 is a Sunday; the query reports not available with
no slots. -/
theorem get_available_slots_closed_day_witness :
    get_available_slots_for_date 6 60 0 [some ⟨571200, 574800⟩] =
      ⟨false, []⟩ :=
  get_available_slots_closed_day 6 60 0 [some ⟨571200, 574800⟩] (by decide)

/-- **C9** (confirmed).  For any non-negative buffer the direct-overlap test
implies the buffered-overlap test (widening the candidate only adds overlap),
and consequently `check_time_conflict` — which uses the fixed non-negative
`BUFFER_TIME` — decides exactly as the buffered test alone: the direct test
is redundant. -/
theorem direct_overlap_redundant (buf : Int) (hbuf : 0 ≤ buf) :
    (∀ rs re es ee : Int, direct_overlap rs re es ee = true →
        buffer_overlap buf rs re es ee = true) ∧
      ∀ (rs re : Int) (evs : List (Option Interval)),
        check_time_conflict rs re evs =
          check_time_conflict_buffered_only rs re evs := by
  constructor
  · intro rs re es ee h
    simp only [direct_overlap, buffer_overlap, Bool.and_eq_true,
      decide_eq_true_eq] at *
    omega
  · intro rs re evs
    induction evs with
    | nil => rfl
    | cons o rest ih =>
      cases o with
      | none =>
        rw [check_time_conflict, check_time_conflict_buffered_only]
        exact ih
      | some ev =>
        rw [check_time_conflict, check_time_conflict_buffered_only]
        have hcond : (direct_overlap rs re ev.start ev.endTime
            || buffer_overlap (BUFFER_TIME * 60) rs re ev.start ev.endTime) =
            buffer_overlap (BUFFER_TIME * 60) rs re ev.start ev.endTime := by
          cases hd : direct_overlap rs re ev.start ev.endTime
          · simp
          · have hb : buffer_overlap (BUFFER_TIME * 60) rs re ev.start
                ev.endTime = true := by
              simp only [direct_overlap, buffer_overlap, BUFFER_TIME,
                Bool.and_eq_true, decide_eq_true_eq] at *
              omega
            simp [hb]
        rw [hcond, ih]

/-- Witness for C9: at buffer 0 the implication instantiates on a directly
overlapping pair, and the two conflict scans agree on a sample list. -/
theorem direct_overlap_redundant_witness :
    buffer_overlap 0 0 60 30 90 = true ∧
      check_time_conflict 0 60 [none, some ⟨100, 200⟩] =
        check_time_conflict_buffered_only 0 60 [none, some ⟨100, 200⟩] :=
  ⟨(direct_overlap_redundant 0 (by decide)).1 0 60 30 90 (by decide),
    (direct_overlap_redundant 0 (by decide)).2 0 60 [none, some ⟨100, 200⟩]⟩

/-- **C10** (confirmed).  Every slot emitted by `generate_alternative_slots`
starts on a 0- or 30-minute boundary with a zero seconds component, for every
date, duration, existing-event list, and clock. -/
theorem generate_slots_half_hour_aligned
    (requested_date duration_minutes now : Int)
    (existing : List (Option Interval)) (s : Slot)
    (h : s ∈ generate_alternative_slots requested_date duration_minutes now
      existing) :
    (minuteOfHour s.start_time = 0 ∨ minuteOfHour s.start_time = 30) ∧
      secondOfMinute s.start_time = 0 := by
  have hmem := generate_alternative_slots_mem h
  have h1800 := hmem.2.2.1
  unfold minuteOfHour secondOfMinute
  omega

/-- Witness for C10: the 09:30 slot of an open day starts at minute 30,
second 0. -/
theorem generate_slots_half_hour_aligned_witness :
    (minuteOfHour 120600 = 0 ∨ minuteOfHour 120600 = 30) ∧
      secondOfMinute 120600 = 0 :=
  generate_slots_half_hour_aligned 1 570 0 [] ⟨120600, 154800⟩ (by decide)

/-- **C4** counterexample.  Scenario of the claim: hours 9–19, buffer 15,
duration 60, existing appointment 10:00–11:00 on open Tuesday day 1 (today is
Monday day 0).  The claim asserts the output includes the 09:00–10:00 slot
(start `118800`) and the 11:00–12:00 slot (start `126000`); in fact both are
absent — each sits exactly adjacent to the existing appointment, and a zero
gap is below the 15-minute buffer, so the buffered test fires. -/
theorem tuesday_scenario_adjacent_excluded :
    (generate_alternative_slots 1 60 0 [some ⟨122400, 126000⟩]).any
      (fun s => s.start_time == 118800 || s.start_time == 126000) = false := by
  decide

/-- **C4** (corrected).  In the claim's scenario the generator excludes every
candidate from 09:00 through 11:00 inclusive (all conflict under the
15-minute buffer, the exactly-adjacent 09:00–10:00 and 11:00–12:00 included)
and returns exactly the 30-minute-stride hour-long slots from 11:30–12:30
through 18:00–19:00. -/
theorem tuesday_scenario_slots :
    generate_alternative_slots 1 60 0 [some ⟨122400, 126000⟩] =
      [⟨127800, 131400⟩, ⟨129600, 133200⟩, ⟨131400, 135000⟩, ⟨133200, 136800⟩,
       ⟨135000, 138600⟩, ⟨136800, 140400⟩, ⟨138600, 142200⟩, ⟨140400, 144000⟩,
       ⟨142200, 145800⟩, ⟨144000, 147600⟩, ⟨145800, 149400⟩, ⟨147600, 151200⟩,
       ⟨149400, 153000⟩, ⟨151200, 154800⟩] := by
  decide

/-- **C5** (code bug).  Generating slots for today (day 0) at
`now` = 09:40:00 (`34800`): the source advances the cursor to
`now + 1 hour` = 10:40 but then *floors* it to the previous 0/30-minute
boundary (`replace(minute = 0 if minute < 30 else 30)`), so the first emitted
slot starts at 10:30 (`37800`) — 50 minutes after `now`, violating the
one-hour minimum lead time the claim (and the source's own
"At least 1 hour notice" comment) require. -/
theorem today_slot_below_one_hour_notice :
    (generate_alternative_slots 0 60 34800 []).head? = some ⟨37800, 41400⟩ ∧
      (37800 : Int) < 34800 + 3600 := by
  decide

/-- A phone string accepted by `validate_phone_number` is nonempty. -/
theorem validate_phone_nonempty {p : String}
    (h : validate_phone_number p = true) : p.isEmpty = false := by
  by_contra hne
  rw [Bool.not_eq_false] at hne
  unfold validate_phone_number at h
  simp [hne] at h

/-- **C6** counterexample.  A booking whose start is
`now + minLeadTimeMinutes − 1 second` (`now` = `32401` = 09:00:01, start =
`36000` = 10:00:00 = now + 3599 s) passes every check and is **accepted**
(`booked`), where the claim says it is rejected as past/too-soon:
`book_appointment` has no minimum-lead-time check, only the strict past
check `start <= now`. -/
theorem booking_lead_minus_one_second_accepted :
    book_appointment "Ali" "03211234567" 0 36000 60 32401
      (Except.ok []) (Except.ok 1) = .booked 1 := by
  decide

/-- **C6** (corrected).  A booking passing the field, phone, hours, closure
and conflict checks is accepted whenever its start is strictly after `now` —
there is no minimum-lead-time check, so both `now + minLeadTimeMinutes − 1 s`
and `now + minLeadTimeMinutes + 1 s` are accepted; only `start <= now` is
rejected as past. -/
theorem book_accepts_any_strictly_future_start
    (patient_name patient_phone : String) (d t dur now : Int)
    (events : List (Option Interval)) (eid : Nat)
    (hname : patient_name.isEmpty = false)
    (hphone : validate_phone_number patient_phone = true)
    (hfut : now < d * 86400 + t)
    (hhs : is_within_clinic_hours (d * 86400 + t) = true)
    (hhe : is_within_clinic_hours (d * 86400 + t + dur * 60 - 60) = true)
    (hwk : is_weekend (dayOf (d * 86400 + t)) = false)
    (hcl : d * 86400 + t + dur * 60 ≤
      dayOf (d * 86400 + t) * 86400 + CLINIC_CLOSE_HOUR * 3600)
    (hconf : (check_time_conflict (d * 86400 + t) (d * 86400 + t + dur * 60)
      events).fst = false) :
    book_appointment patient_name patient_phone d t dur now
      (Except.ok events) (Except.ok eid) = .booked eid := by
  have hval : validate_appointment_request (d * 86400 + t)
      (d * 86400 + t + dur * 60) now = .ok := by
    unfold validate_appointment_request
    rw [if_neg (by omega), if_neg (by simp [hhs, hhe]),
      if_neg (by simp [hwk]), if_neg (by omega)]
  unfold book_appointment
  rw [hname, validate_phone_nonempty hphone, hphone]
  simp only [Bool.or_self, Bool.not_true, Bool.false_eq_true, if_false]
  rw [hval]
  simp only [get_existing_appointments]
  rw [hconf]
  simp

/-- Witness for C6 (corrected): a concrete booking starting exactly
`now + 3599 s` with all other checks passing, accepted. -/
theorem book_accepts_any_strictly_future_start_witness :
    book_appointment "Ali" "03211234567" 0 36000 60 32401
      (Except.ok [some ⟨50400, 54000⟩]) (Except.ok 2) = .booked 2 :=
  book_accepts_any_strictly_future_start "Ali" "03211234567" 0 36000 60 32401
    [some ⟨50400, 54000⟩] 2 (by decide) (by decide) (by decide) (by decide)
    (by decide) (by decide) (by decide) (by decide)

/-- **C7** counterexample.  On input `"blah"` — which matches none of the
natural-date cases — with the generic parser failing (oracle returns `none`)
and `now` on Saturday day 5 at 10:00, `parse_natural_date` does not fail with
a `DateParseError`: it silently returns day 7, i.e. tomorrow advanced past
the closed Sunday.  The fallback lives inside the resolver, which signals no
failure at all. -/
theorem parse_failure_silent_fallback :
    parse_natural_date (fun _ => none) "blah" (5 * 86400 + 36000) = 7 := by
  decide

/-- **C7** (corrected).  Whenever every natural-date case fails to match and
the generic parsing raises, `parse_natural_date` itself silently returns
tomorrow advanced past closed days — success, not a `DateParseError`; the
"tomorrow, adjusted for closure" fallback is the resolver's own behaviour,
not a caller policy. -/
theorem parse_failure_returns_tomorrow
    (generic_parse : String → Option Int) (date_input : String) (now : Int)
    (htoday : containsSub "today".toList
      (date_input.toList.map Char.toLower) = false)
    (htom : containsSub "tomorrow".toList
      (date_input.toList.map Char.toLower) = false)
    (hdays : ∀ p ∈ days_of_week, containsSub p.fst.toList
      (date_input.toList.map Char.toLower) = false)
    (hweek : containsSub "next week".toList
      (date_input.toList.map Char.toLower) = false)
    (hfail : generic_parse date_input = none) :
    parse_natural_date generic_parse date_input now =
      advanceWhileClosed (dayOf now + 1) := by
  unfold parse_natural_date
  dsimp only
  have hfind : days_of_week.find? (fun p => containsSub p.fst.toList
      (date_input.toList.map Char.toLower)) = none :=
    List.find?_eq_none.mpr (fun p hp => by
      rw [hdays p hp]
      exact Bool.false_ne_true)
  simp only [htoday, htom, hweek, hfind, hfail, Bool.false_eq_true, if_false]

/-- Witness for C7 (corrected): input `"xyz"`, failing oracle, `now` on
Wednesday day 2 — the resolver returns tomorrow (adjusted for closure). -/
theorem parse_failure_returns_tomorrow_witness :
    parse_natural_date (fun _ => none) "xyz" (2 * 86400) =
      advanceWhileClosed (dayOf (2 * 86400) + 1) :=
  parse_failure_returns_tomorrow (fun _ => none) "xyz" (2 * 86400)
    (by decide) (by decide) (by decide) (by decide) rfl

/-- **C8** counterexample.  A booking attempt during which the calendar read
fails (`Except.error`) still returns success: the swallowed read error is
treated as "no existing appointments", the conflict check passes vacuously,
and the commit proceeds. -/
theorem book_succeeds_despite_read_failure :
    book_appointment "Ali" "03211234567" 1 36000 60 0
      (Except.error ()) (Except.ok 1) = .booked 1 := by
  decide

/-- **C8** (corrected).  `book_appointment` treats a failed calendar read
exactly as an empty appointment list: the outcome with a read error is the
outcome with a successful read of zero events, for every request — so a read
failure is never surfaced and can end in `Success`. -/
theorem book_read_failure_as_empty
    (patient_name patient_phone : String) (d t dur now : Int)
    (writeResult : Except Unit Nat) :
    book_appointment patient_name patient_phone d t dur now
        (Except.error ()) writeResult =
      book_appointment patient_name patient_phone d t dur now
        (Except.ok []) writeResult := by
  rfl

end CalendarService
